import Mathlib

/-!
Shallow embedding of the poke-oura-mcp-server tool-invocation core.

The repository holds near-duplicate variants of one small HTTP service:
`src/server.mjs` (which itself contains two concatenated copies of the
program) and an unnamed variant (`part_000`).  The embedding models the
JavaScript values the handlers actually inspect, the two tool handlers
(`handleOuraSleepCheck`, `handleOuraSleepSummary`) of each variant, the
static tool registry served by `GET /mcp/tools`, and the invocation
routes `POST /mcp` (unnamed variant) and `POST /mcp/tools/run`
(`server.mjs`, first copy).

JavaScript semantics captured here:
  * property access with destructuring defaults (`const { forceAlert =
    false } = args` applies the default only when the property is
    `undefined`, and throws a TypeError when `args` is `undefined` or
    `null`);
  * truthiness coercion (`forceAlert ? 65 : 85`);
  * short-circuit `||` returning its first operand unchanged when that
    operand is truthy (`alert = forceAlert || sleepScore < 70`);
  * template-literal stringification in error messages.
-/

deriving instance DecidableEq for Except

/-- A primitive JavaScript value, as far as the handlers distinguish
them. -/
inductive JSPrim where
  | undefined : JSPrim
  | null : JSPrim
  | bool (b : Bool) : JSPrim
  | num (n : Int) : JSPrim
  | str (s : String) : JSPrim
deriving DecidableEq, Repr

/-- JavaScript truthiness of a primitive value. -/
def truthy : JSPrim → Bool
  | JSPrim.undefined => false
  | JSPrim.null => false
  | JSPrim.bool b => b
  | JSPrim.num n => decide (n ≠ 0)
  | JSPrim.str s => decide (s ≠ "")

/-- Template-literal stringification of a primitive value, as in
the route error message built from the unknown tool name. -/
def jsToString : JSPrim → String
  | JSPrim.undefined => "undefined"
  | JSPrim.null => "null"
  | JSPrim.bool true => "true"
  | JSPrim.bool false => "false"
  | JSPrim.num n => toString n
  | JSPrim.str s => s

/-- A JavaScript value as passed for `args`: either a primitive or an
object literal whose property values are primitives (the only shapes
the handlers ever inspect). -/
inductive JSValue where
  | prim (p : JSPrim) : JSValue
  | obj (fields : List (String × JSPrim)) : JSValue
deriving DecidableEq, Repr

/-- Property read on an object literal: the bound value, or `undefined`
when the key is absent. -/
def lookupProp (fields : List (String × JSPrim)) (k : String) : JSPrim :=
  match fields.lookup k with
  | some v => v
  | none => JSPrim.undefined

/-- Destructuring a property out of a JavaScript value
(`const { k } = v`): throws a TypeError when `v` is `undefined` or
`null`, reads the property of an object, and yields `undefined` for a
key the handlers use on any other primitive. -/
def destructureProp (v : JSValue) (k : String) : Except String JSPrim :=
  match v with
  | JSValue.prim JSPrim.undefined =>
      Except.error ("TypeError: Cannot destructure property \x27" ++ k ++ "\x27 of undefined")
  | JSValue.prim JSPrim.null =>
      Except.error ("TypeError: Cannot destructure property \x27" ++ k ++ "\x27 of null")
  | JSValue.prim _ => Except.ok JSPrim.undefined
  | JSValue.obj fields => Except.ok (lookupProp fields k)

/-- Destructuring default `= false`: replaces `undefined` (and only
`undefined`) by the boolean `false`. -/
def withDefaultFalse : JSPrim → JSPrim
  | JSPrim.undefined => JSPrim.bool false
  | v => v

/-- `(totalSleepMin / 60).toFixed(1)`: hours with one decimal digit.
Both call sites pass 360 or 450, where the division is exact, so
truncation agrees with JavaScript rounding. -/
def toFixed1 (min : Nat) : String :=
  toString (min / 60) ++ "." ++ toString (min % 60 * 10 / 60)

/-- Alert-state message of the camelCase sleep-check handlers
(the leading characters are the double-encoded bytes present in the
source files). -/
def alertStateMessage (sleepScore : Nat) : String :=
  "âš ï¸ Sleep score is " ++ toString sleepScore ++ ". Consider resting today."

/-- Train-state message of the camelCase sleep-check handlers. -/
def trainStateMessage (sleepScore : Nat) : String :=
  "âœ… Sleep score is " ++ toString sleepScore ++ ". You\x27re good to train!"

/-- Weekly-summary message of the camelCase sleep-summary handlers. -/
def summaryMessage : String :=
  "ðŸ“Š Your sleep has been improving this week. Keep it up!"

/-- Result shape of the camelCase sleep-check handlers (`server.mjs`
lines 194-202, `part_000` lines 120-128).  `alert` is a raw JavaScript
value because `forceAlert || sleepScore < 70` returns the first operand
unchanged when it is truthy. -/
structure SleepCheckResult where
  sleepScore : Nat
  totalSleepHours : String
  recommendation : String
  alert : JSPrim
  message : String
deriving DecidableEq, Repr

/-- Result shape of the second `handleOuraSleepCheck` copy in
`server.mjs` (lines 306-314): snake_case keys and raw minutes. -/
structure SleepCheckResult2 where
  sleep_score : Nat
  total_sleep_min : Nat
  recommendation : String
  alert : JSPrim
  message : String
deriving DecidableEq, Repr

/-- Result of the camelCase sleep-summary handlers (`server.mjs` lines
208-214, `part_000` lines 134-140). -/
structure SleepSummaryResult where
  weeklyAverage : Nat
  trend : String
  daysWithGoodSleep : Nat
  daysWithPoorSleep : Nat
  message : String
deriving DecidableEq, Repr

/-- JSON field list of a camelCase sleep-check result, in source
order. -/
def SleepCheckResult.fields (r : SleepCheckResult) : List (String × JSPrim) :=
  [("sleepScore", JSPrim.num (Int.ofNat r.sleepScore)),
   ("totalSleepHours", JSPrim.str r.totalSleepHours),
   ("recommendation", JSPrim.str r.recommendation),
   ("alert", r.alert),
   ("message", JSPrim.str r.message)]

/-- JSON field list of a snake_case sleep-check result, in source
order. -/
def SleepCheckResult2.fields (r : SleepCheckResult2) : List (String × JSPrim) :=
  [("sleep_score", JSPrim.num (Int.ofNat r.sleep_score)),
   ("total_sleep_min", JSPrim.num (Int.ofNat r.total_sleep_min)),
   ("recommendation", JSPrim.str r.recommendation),
   ("alert", r.alert),
   ("message", JSPrim.str r.message)]

namespace ServerMjs

/-- `handleOuraSleepCheck` of `server.mjs`, first copy (lines
183-203). -/
def handleOuraSleepCheck (args : JSValue) : Except String SleepCheckResult :=
  match destructureProp args "forceAlert" with
  | Except.error e => Except.error e
  | Except.ok raw =>
  let forceAlert := withDefaultFalse raw
  let sleepScore : Nat := if truthy forceAlert then 65 else 85
  let totalSleepMin : Nat := if truthy forceAlert then 360 else 450
  let recommendation : String := if sleepScore ≥ 70 then "train" else "rest"
  let alert : JSPrim :=
    if truthy forceAlert then forceAlert else JSPrim.bool (decide (sleepScore < 70))
  Except.ok
    { sleepScore := sleepScore
      totalSleepHours := toFixed1 totalSleepMin
      recommendation := recommendation
      alert := alert
      message :=
        if truthy alert then alertStateMessage sleepScore else trainStateMessage sleepScore }

/-- `handleOuraSleepSummary` of `server.mjs`, first copy (lines
206-215): ignores its argument entirely. -/
def handleOuraSleepSummary (args : JSValue) : SleepSummaryResult :=
  { weeklyAverage := 82
    trend := "improving"
    daysWithGoodSleep := 5
    daysWithPoorSleep := 2
    message := summaryMessage }

end ServerMjs

namespace Part000

/-- `handleOuraSleepCheck` of the unnamed variant (`part_000` lines
109-129); textually identical to the first `server.mjs` copy. -/
def handleOuraSleepCheck (args : JSValue) : Except String SleepCheckResult :=
  match destructureProp args "forceAlert" with
  | Except.error e => Except.error e
  | Except.ok raw =>
  let forceAlert := withDefaultFalse raw
  let sleepScore : Nat := if truthy forceAlert then 65 else 85
  let totalSleepMin : Nat := if truthy forceAlert then 360 else 450
  let recommendation : String := if sleepScore ≥ 70 then "train" else "rest"
  let alert : JSPrim :=
    if truthy forceAlert then forceAlert else JSPrim.bool (decide (sleepScore < 70))
  Except.ok
    { sleepScore := sleepScore
      totalSleepHours := toFixed1 totalSleepMin
      recommendation := recommendation
      alert := alert
      message :=
        if truthy alert then alertStateMessage sleepScore else trainStateMessage sleepScore }

/-- `handleOuraSleepSummary` of the unnamed variant (`part_000` lines
132-141). -/
def handleOuraSleepSummary (args : JSValue) : SleepSummaryResult :=
  { weeklyAverage := 82
    trend := "improving"
    daysWithGoodSleep := 5
    daysWithPoorSleep := 2
    message := summaryMessage }

end Part000

namespace ServerMjsCopy2

/-- Second `handleOuraSleepCheck` copy in `server.mjs` (lines 295-315):
same computation, but a snake_case payload carrying raw minutes. -/
def handleOuraSleepCheck (args : JSValue) : Except String SleepCheckResult2 :=
  match destructureProp args "forceAlert" with
  | Except.error e => Except.error e
  | Except.ok raw =>
  let forceAlert := withDefaultFalse raw
  let sleepScore : Nat := if truthy forceAlert then 65 else 85
  let totalSleepMin : Nat := if truthy forceAlert then 360 else 450
  let recommendation : String := if sleepScore ≥ 70 then "train" else "rest"
  let alert : JSPrim :=
    if truthy forceAlert then forceAlert else JSPrim.bool (decide (sleepScore < 70))
  Except.ok
    { sleep_score := sleepScore
      total_sleep_min := totalSleepMin
      recommendation := recommendation
      alert := alert
      message :=
        if truthy alert then
          "Low sleep score (" ++ toString sleepScore ++ "). Consider resting today."
        else
          "Good sleep score (" ++ toString sleepScore ++ "). Ready to train!" }

end ServerMjsCopy2

/-- Per-property JSON schema entry of a tool descriptor. -/
structure PropSchema where
  type : String
  description : String
deriving DecidableEq, Repr

/-- `inputSchema` of a tool descriptor. -/
structure InputSchema where
  type : String
  properties : List (String × PropSchema)
deriving DecidableEq, Repr

/-- One entry of the tool registry. -/
structure ToolDescriptor where
  name : String
  description : String
  inputSchema : InputSchema
deriving DecidableEq, Repr

/-- The static registry served by `GET /mcp/tools` in `server.mjs`
(lines 133-160). -/
def listTools : List ToolDescriptor :=
  [{ name := "oura_sleep_check"
     description := "Check sleep data and determine if user should rest or train"
     inputSchema :=
       { type := "object"
         properties :=
           [("forceAlert",
             { type := "boolean"
               description := "Force an alert regardless of sleep score" })] } },
   { name := "oura_sleep_summary"
     description := "Get weekly sleep summary"
     inputSchema := { type := "object", properties := [] } }]

/-- Outcome of one invocation request, as produced by the route
handlers: a tool payload, a 404 not-found body, a 400 bad-request body,
or an exception escaping the handler (which the surrounding transport
turns into a 500 response). -/
inductive RouteOutcome where
  | sleepCheck (r : SleepCheckResult) : RouteOutcome
  | sleepCheckV2 (r : SleepCheckResult2) : RouteOutcome
  | sleepSummary (r : SleepSummaryResult) : RouteOutcome
  | notFound (error : String) : RouteOutcome
  | badRequest (error : String) : RouteOutcome
  | fault (msg : String) : RouteOutcome
deriving DecidableEq, Repr

/-- Whether an outcome is the 404 not-found body. -/
def RouteOutcome.isNotFound : RouteOutcome → Bool
  | RouteOutcome.notFound _ => true
  | _ => false

/-- The request body of an invocation: the values destructured out of
`request.body` for `tool` and `args`.  An entirely absent (falsy) body
is modelled by `Option.none` at the route. -/
structure McpBody where
  tool : JSPrim
  args : JSValue
deriving DecidableEq, Repr

namespace Part000

/-- `POST /mcp` of the unnamed variant (lines 93-106):
`const { tool, args } = request.body || {}` (note: no default for
`args`), then a switch on the tool name by strict equality. -/
def postMcp (body : Option McpBody) : RouteOutcome :=
  let b := body.getD { tool := JSPrim.undefined, args := JSValue.prim JSPrim.undefined }
  if b.tool = JSPrim.str "oura_sleep_check" then
    match handleOuraSleepCheck b.args with
    | Except.ok r => RouteOutcome.sleepCheck r
    | Except.error e => RouteOutcome.fault e
  else if b.tool = JSPrim.str "oura_sleep_summary" then
    RouteOutcome.sleepSummary (handleOuraSleepSummary b.args)
  else
    RouteOutcome.notFound ("Tool \x27" ++ jsToString b.tool ++ "\x27 not found")

end Part000

namespace ServerMjs

/-- `POST /mcp/tools/run` of `server.mjs`, first copy (lines 163-180):
`const { tool, args = {} } = request.body` (throws on a missing body),
a `!tool` guard answering 400, then the switch. -/
def postMcpToolsRun (body : Option McpBody) : RouteOutcome :=
  match body with
  | none =>
      RouteOutcome.fault "TypeError: Cannot destructure property \x27tool\x27 of undefined"
  | some b =>
      let args := match b.args with
        | JSValue.prim JSPrim.undefined => JSValue.obj []
        | a => a
      if truthy b.tool then
        if b.tool = JSPrim.str "oura_sleep_check" then
          match handleOuraSleepCheck args with
          | Except.ok r => RouteOutcome.sleepCheck r
          | Except.error e => RouteOutcome.fault e
        else if b.tool = JSPrim.str "oura_sleep_summary" then
          RouteOutcome.sleepSummary (handleOuraSleepSummary args)
        else
          RouteOutcome.notFound ("Tool \x27" ++ jsToString b.tool ++ "\x27 not found")
      else
        RouteOutcome.badRequest "Tool name is required"

end ServerMjs

/-- A sequence of independent invocations of `POST /mcp`: the service
keeps no state between requests, so a trace is just the requestwise map
of the route. -/
def runTrace (reqs : List (Option McpBody)) : List RouteOutcome :=
  reqs.map Part000.postMcp

/-- The result every camelCase sleep-check handler returns when
`forceAlert` is falsy or absent. -/
def defaultCheckResult : SleepCheckResult :=
  { sleepScore := 85
    totalSleepHours := "7.5"
    recommendation := "train"
    alert := JSPrim.bool false
    message := trainStateMessage 85 }

/-- The result every camelCase sleep-check handler returns when
`forceAlert` is the boolean `true`. -/
def forcedCheckResult : SleepCheckResult :=
  { sleepScore := 65
    totalSleepHours := "6.0"
    recommendation := "rest"
    alert := JSPrim.bool true
    message := alertStateMessage 65 }

/-- The constant payload of the camelCase sleep-summary handlers. -/
def summaryResult : SleepSummaryResult :=
  { weeklyAverage := 82
    trend := "improving"
    daysWithGoodSleep := 5
    daysWithPoorSleep := 2
    message := summaryMessage }

/-- Helper: on any object argument the `server.mjs` sleep-check handler
succeeds, branching on the truthiness of the (defaulted) `forceAlert`
property; in the forced branch `alert` carries that raw property
value. -/
theorem handleOuraSleepCheck_obj_eq (fields : List (String × JSPrim)) :
    ServerMjs.handleOuraSleepCheck (JSValue.obj fields) =
      Except.ok
        (if truthy (withDefaultFalse (lookupProp fields "forceAlert")) then
          { forcedCheckResult with alert := withDefaultFalse (lookupProp fields "forceAlert") }
        else defaultCheckResult) := by
  cases h : truthy (withDefaultFalse (lookupProp fields "forceAlert")) <;>
    simp [ServerMjs.handleOuraSleepCheck, destructureProp, h, toFixed1,
      forcedCheckResult, defaultCheckResult] <;> decide

/-- Helper: the unnamed variant's sleep-check handler is definitionally
the same function as the first `server.mjs` copy. -/
theorem part000_handleOuraSleepCheck_eq (args : JSValue) :
    Part000.handleOuraSleepCheck args = ServerMjs.handleOuraSleepCheck args := rfl

/-- Claim C1: invoking the sleep-check tool with `forceAlert` absent or
`false` yields score 85, hours "7.5", recommendation "train" and alert
`false`; with `forceAlert` `true` it yields score 65, hours "6.0",
recommendation "rest" and alert `true` — in both handler variants. -/
theorem sleep_check_default_and_forced_outputs (fields : List (String × JSPrim)) :
    ((lookupProp fields "forceAlert" = JSPrim.undefined ∨
        lookupProp fields "forceAlert" = JSPrim.bool false) →
      ServerMjs.handleOuraSleepCheck (JSValue.obj fields) = Except.ok defaultCheckResult ∧
        Part000.handleOuraSleepCheck (JSValue.obj fields) = Except.ok defaultCheckResult) ∧
    (lookupProp fields "forceAlert" = JSPrim.bool true →
      ServerMjs.handleOuraSleepCheck (JSValue.obj fields) = Except.ok forcedCheckResult ∧
        Part000.handleOuraSleepCheck (JSValue.obj fields) = Except.ok forcedCheckResult) := by
  constructor
  · intro h
    have hw : withDefaultFalse (lookupProp fields "forceAlert") = JSPrim.bool false := by
      rcases h with h | h <;> rw [h] <;> rfl
    have hs := handleOuraSleepCheck_obj_eq fields
    rw [hw] at hs
    simp only [truthy, Bool.false_eq_true, if_false] at hs
    exact ⟨hs, (part000_handleOuraSleepCheck_eq _).trans hs⟩
  · intro h
    have hw : withDefaultFalse (lookupProp fields "forceAlert") = JSPrim.bool true := by
      rw [h]; rfl
    have hs := handleOuraSleepCheck_obj_eq fields
    rw [hw] at hs
    simp only [truthy, if_true] at hs
    exact ⟨hs, (part000_handleOuraSleepCheck_eq _).trans hs⟩

/-- Witness for C1 at the concrete arguments `{}` and
`{forceAlert: true}`. -/
theorem sleep_check_default_and_forced_outputs_witness :
    (ServerMjs.handleOuraSleepCheck (JSValue.obj []) = Except.ok defaultCheckResult ∧
      Part000.handleOuraSleepCheck (JSValue.obj []) = Except.ok defaultCheckResult) ∧
    (ServerMjs.handleOuraSleepCheck (JSValue.obj [("forceAlert", JSPrim.bool true)]) =
        Except.ok forcedCheckResult ∧
      Part000.handleOuraSleepCheck (JSValue.obj [("forceAlert", JSPrim.bool true)]) =
        Except.ok forcedCheckResult) :=
  ⟨(sleep_check_default_and_forced_outputs []).1 (Or.inl (by decide)),
   (sleep_check_default_and_forced_outputs [("forceAlert", JSPrim.bool true)]).2 (by decide)⟩

/-- Claim C2: for every boolean `forceAlert`, the sleep-check result
satisfies `recommendation = "train" ↔ score ≥ 70` and
`alert = (forceAlert || score < 70)` simultaneously. -/
theorem sleep_check_score_relations (b : Bool) (r : SleepCheckResult)
    (h : ServerMjs.handleOuraSleepCheck (JSValue.obj [("forceAlert", JSPrim.bool b)]) =
      Except.ok r) :
    ((r.recommendation = "train") ↔ 70 ≤ r.sleepScore) ∧
    r.alert = JSPrim.bool (b || decide (r.sleepScore < 70)) := by
  cases b
  all_goals
    have hb := (handleOuraSleepCheck_obj_eq _).symm.trans h
    injection hb with hr
    subst hr
    decide

/-- Witness for C2 at `forceAlert = true`. -/
theorem sleep_check_score_relations_witness :
    ((forcedCheckResult.recommendation = "train") ↔ 70 ≤ forcedCheckResult.sleepScore) ∧
    forcedCheckResult.alert =
      JSPrim.bool (true || decide (forcedCheckResult.sleepScore < 70)) :=
  sleep_check_score_relations true forcedCheckResult (by decide)

/-- Counterexample to C3 as stated: the empty string is a tool name
outside the registry, yet `POST /mcp/tools/run` answers it with the 400
"Tool name is required" body — not a not-found outcome referencing the
attempted name — because the `!tool` guard fires on any falsy name. -/
theorem unknown_tool_empty_name_counterexample :
    "" ∉ listTools.map ToolDescriptor.name ∧
    ServerMjs.postMcpToolsRun
        (some { tool := JSPrim.str "", args := JSValue.prim JSPrim.undefined }) =
      RouteOutcome.badRequest "Tool name is required" ∧
    RouteOutcome.isNotFound
        (ServerMjs.postMcpToolsRun
          (some { tool := JSPrim.str "", args := JSValue.prim JSPrim.undefined })) = false := by
  decide

/-- Claim C3 (amended): every unregistered tool name yields the 404
not-found body quoting the attempted name on `POST /mcp`, and every
non-empty unregistered name does so on `POST /mcp/tools/run`; the empty
name instead hits that route's 400 guard. -/
theorem unknown_tool_not_found_amended (s : String) (args : JSValue)
    (h1 : s ≠ "oura_sleep_check") (h2 : s ≠ "oura_sleep_summary") :
    Part000.postMcp (some { tool := JSPrim.str s, args := args }) =
      RouteOutcome.notFound ("Tool \x27" ++ s ++ "\x27 not found") ∧
    (s ≠ "" →
      ServerMjs.postMcpToolsRun (some { tool := JSPrim.str s, args := args }) =
        RouteOutcome.notFound ("Tool \x27" ++ s ++ "\x27 not found")) := by
  constructor
  · simp [Part000.postMcp, h1, h2, jsToString]
  · intro h3
    simp [ServerMjs.postMcpToolsRun, truthy, h1, h2, h3, jsToString]

/-- Witness for C3 (amended) at the name "nonexistent_tool". -/
theorem unknown_tool_not_found_amended_witness :
    Part000.postMcp
        (some { tool := JSPrim.str "nonexistent_tool", args := JSValue.obj [] }) =
      RouteOutcome.notFound ("Tool \x27" ++ "nonexistent_tool" ++ "\x27 not found") ∧
    ServerMjs.postMcpToolsRun
        (some { tool := JSPrim.str "nonexistent_tool", args := JSValue.obj [] }) =
      RouteOutcome.notFound ("Tool \x27" ++ "nonexistent_tool" ++ "\x27 not found") :=
  ⟨(unknown_tool_not_found_amended "nonexistent_tool" (JSValue.obj [])
      (by decide) (by decide)).1,
   (unknown_tool_not_found_amended "nonexistent_tool" (JSValue.obj [])
      (by decide) (by decide)).2 (by decide)⟩

/-- Claim C4: the unnamed variant's `POST /mcp` route evaluated at the
failing input — the known tool `oura_sleep_check` with the `args` key
entirely absent — where `const { forceAlert = false } = args`
destructures `undefined` and throws instead of returning a result. -/
theorem sleep_check_missing_args_fault :
    Part000.postMcp
        (some { tool := JSPrim.str "oura_sleep_check", args := JSValue.prim JSPrim.undefined }) =
      RouteOutcome.fault
        "TypeError: Cannot destructure property \x27forceAlert\x27 of undefined" := by
  decide

/-- Claim C5: both camelCase sleep-summary handlers return the fixed
payload (weekly average 82, trend "improving", 5 good nights, 2 poor
nights, summary message) whatever the arguments, identically on every
call. -/
theorem sleep_summary_constant (args : JSValue) :
    ServerMjs.handleOuraSleepSummary args = summaryResult ∧
    Part000.handleOuraSleepSummary args = summaryResult ∧
    ServerMjs.handleOuraSleepSummary args =
      ServerMjs.handleOuraSleepSummary (JSValue.obj []) :=
  ⟨rfl, rfl, rfl⟩

/-- Counterexample to C6 as stated: no registry entry is named
`sleep_check` — the registered names carry the `oura_` prefix. -/
theorem list_tools_name_counterexample :
    "sleep_check" ∉ listTools.map ToolDescriptor.name ∧
    listTools.map ToolDescriptor.name = ["oura_sleep_check", "oura_sleep_summary"] := by
  decide

/-- Claim C6 (amended): the registry constant holds exactly two
descriptors — `oura_sleep_check`, whose object schema has the single
optional boolean property `forceAlert`, and `oura_sleep_summary`, whose
object schema has no properties; being a constant it is the same
sequence on every call, with no side effects. -/
theorem list_tools_registry_amended :
    listTools.length = 2 ∧
    listTools.map ToolDescriptor.name = ["oura_sleep_check", "oura_sleep_summary"] ∧
    listTools.map (fun d => d.inputSchema.type) = ["object", "object"] ∧
    listTools.map (fun d => d.inputSchema.properties.map (fun p => (p.1, p.2.type))) =
      [[("forceAlert", "boolean")], []] := by
  decide

/-- Counterexample to C7 as stated: a non-boolean `forceAlert` (the
string "yes") is not rejected with a validation error — the handler
silently coerces it by truthiness and returns a normal forced result
whose `alert` field carries the raw string. -/
theorem force_alert_string_coerced_counterexample :
    ServerMjs.handleOuraSleepCheck (JSValue.obj [("forceAlert", JSPrim.str "yes")]) =
      Except.ok { forcedCheckResult with alert := JSPrim.str "yes" } := by
  decide

/-- Claim C7 (amended): the sleep-check handler performs no argument
validation — every `forceAlert` value, boolean or not, is silently
coerced via JavaScript truthiness: a truthy value yields the forced
result carrying the raw value in `alert`, a falsy (or absent) value
yields the default result; no validation error is ever surfaced. -/
theorem force_alert_truthiness_coercion (v : JSPrim) :
    ServerMjs.handleOuraSleepCheck (JSValue.obj [("forceAlert", v)]) =
      Except.ok
        (if truthy v then { forcedCheckResult with alert := v } else defaultCheckResult) := by
  have hl : lookupProp [("forceAlert", v)] "forceAlert" = v := by simp [lookupProp]
  have hb := handleOuraSleepCheck_obj_eq [("forceAlert", v)]
  rw [hl] at hb
  cases v <;> simp [withDefaultFalse, truthy] at hb ⊢ <;> exact hb

/-- Helper: every successful sleep-check invocation returns either the
forced result (with some truthy raw value in `alert`) or the default
result. -/
theorem handleOuraSleepCheck_ok_cases (args : JSValue) (r : SleepCheckResult)
    (h : ServerMjs.handleOuraSleepCheck args = Except.ok r) :
    (∃ v, truthy v = true ∧ r = { forcedCheckResult with alert := v }) ∨
    r = defaultCheckResult := by
  cases args with
  | prim p =>
      cases p <;> simp [ServerMjs.handleOuraSleepCheck, destructureProp,
        withDefaultFalse, truthy, toFixed1, defaultCheckResult] at h <;>
        exact Or.inr h.symm
  | obj fields =>
      have hb := (handleOuraSleepCheck_obj_eq fields).symm.trans h
      injection hb with hr
      by_cases ht : truthy (withDefaultFalse (lookupProp fields "forceAlert")) = true
      · rw [if_pos ht] at hr
        exact Or.inl ⟨_, ht, hr.symm⟩
      · rw [if_neg ht] at hr
        exact Or.inr hr.symm

/-- Counterexample to C9 as stated: at the arguments object
`{forceAlert: 1}` the recommendation is "rest" and the score is 65, yet
`alert` is the number 1, not the boolean `true` — `forceAlert ||
sleepScore < 70` returned its raw first operand, so "alert is true iff
recommendation is rest" fails, and dropping the `forceAlert` disjunct
would change the returned value. -/
theorem alert_value_not_boolean_counterexample :
    ServerMjs.handleOuraSleepCheck (JSValue.obj [("forceAlert", JSPrim.num 1)]) =
      Except.ok { forcedCheckResult with alert := JSPrim.num 1 } ∧
    JSPrim.num 1 ≠ JSPrim.bool true := by
  decide

/-- Claim C9 (amended): on every accepted arguments object the three
outputs are mutually equivalent at the level of JavaScript truthiness —
`alert` is truthy iff the recommendation is "rest" iff the score is 65
— and the truthiness of `alert` always equals `score < 70`, so the
`forceAlert ||` disjunct never changes the truthiness of `alert`
(and whenever `alert` is an actual boolean its value equals
`score < 70` exactly); the disjunct does change the returned value for
truthy non-boolean `forceAlert`, as the counterexample shows. -/
theorem alert_truthiness_equivalences (args : JSValue) (r : SleepCheckResult)
    (h : ServerMjs.handleOuraSleepCheck args = Except.ok r) :
    (truthy r.alert = true ↔ r.recommendation = "rest") ∧
    (truthy r.alert = true ↔ r.sleepScore = 65) ∧
    truthy r.alert = decide (r.sleepScore < 70) ∧
    (∀ b : Bool, r.alert = JSPrim.bool b → b = decide (r.sleepScore < 70)) := by
  rcases handleOuraSleepCheck_ok_cases args r h with ⟨v, hv, rfl⟩ | rfl
  · refine ⟨by simp [forcedCheckResult, hv], by simp [forcedCheckResult, hv],
      by simp [forcedCheckResult, hv], ?_⟩
    intro b hbv
    simp only [forcedCheckResult] at hbv
    rw [hbv] at hv
    simp [forcedCheckResult]
    exact hv
  · decide

/-- Witness for C9 (amended) at the empty arguments object. -/
theorem alert_truthiness_equivalences_witness :
    (truthy defaultCheckResult.alert = true ↔ defaultCheckResult.recommendation = "rest") ∧
    (truthy defaultCheckResult.alert = true ↔ defaultCheckResult.sleepScore = 65) ∧
    truthy defaultCheckResult.alert = decide (defaultCheckResult.sleepScore < 70) ∧
    (∀ b : Bool, defaultCheckResult.alert = JSPrim.bool b →
      b = decide (defaultCheckResult.sleepScore < 70)) :=
  alert_truthiness_equivalences (JSValue.obj []) defaultCheckResult (by decide)

/-- Claim C8: invocation is deterministic and idempotent — in any two
request traces, positions holding the same request produce the same
outcome, regardless of which other invocations occur before or
between them. -/
theorem invocation_trace_deterministic (r1 r2 : List (Option McpBody)) (i j : Nat)
    (b : Option McpBody) (h1 : r1[i]? = some b) (h2 : r2[j]? = some b) :
    (runTrace r1)[i]? = (runTrace r2)[j]? := by
  simp [runTrace, List.getElem?_map, h1, h2]

/-- Witness for C8: the same summary request at position 0 of one trace
and position 1 of another (after an unrelated request) yields the same
outcome. -/
theorem invocation_trace_deterministic_witness :
    (runTrace [some { tool := JSPrim.str "oura_sleep_summary", args := JSValue.obj [] }])[0]? =
      (runTrace [none,
        some { tool := JSPrim.str "oura_sleep_summary", args := JSValue.obj [] }])[1]? :=
  invocation_trace_deterministic _ _ 0 1
    (some { tool := JSPrim.str "oura_sleep_summary", args := JSValue.obj [] })
    (by decide) (by decide)

/-- Claim C10: the camelCase sleep-check handlers of `server.mjs` and
the unnamed variant are extensionally equal, while the second
`server.mjs` copy produces a differently keyed payload (snake_case,
raw minutes), never field-for-field equal to theirs. -/
theorem variant_handlers_equivalence :
    (∀ args : JSValue,
      ServerMjs.handleOuraSleepCheck args = Part000.handleOuraSleepCheck args) ∧
    (∀ (args : JSValue) (r1 : SleepCheckResult) (r2 : SleepCheckResult2),
      ServerMjs.handleOuraSleepCheck args = Except.ok r1 →
      ServerMjsCopy2.handleOuraSleepCheck args = Except.ok r2 →
      SleepCheckResult.fields r1 ≠ SleepCheckResult2.fields r2) := by
  refine ⟨fun args => rfl, fun args r1 r2 h1 h2 hEq => ?_⟩
  simp [SleepCheckResult.fields, SleepCheckResult2.fields] at hEq

/-- Witness for C10 at the empty arguments object. -/
theorem variant_handlers_equivalence_witness :
    ServerMjs.handleOuraSleepCheck (JSValue.obj []) =
      Part000.handleOuraSleepCheck (JSValue.obj []) ∧
    SleepCheckResult.fields defaultCheckResult ≠
      SleepCheckResult2.fields
        { sleep_score := 85, total_sleep_min := 450, recommendation := "train",
          alert := JSPrim.bool false, message := "Good sleep score (85). Ready to train!" } :=
  ⟨variant_handlers_equivalence.1 (JSValue.obj []),
   variant_handlers_equivalence.2 (JSValue.obj []) defaultCheckResult _ (by decide) (by decide)⟩
